import Mathlib

/- Verification development for the covid19_sequencing repository
   (Hail_COVID19weswgs.ipynb and README.md).

   The notebook is a linear sequence of Hail calls over a MatrixTable
   (rows = variants, columns = samples, cells = genotype entries).  We embed
   the fields the notebook reads and writes as explicit structures, the
   column/row/entry axes as lists, and each authored filter or annotation
   cell as a Lean function over those lists.  External library routines
   whose outputs the notebook consumes (pc_relate kinship estimates,
   maximal_independent_set, split_multi_hts) are modelled through their
   documented interfaces, with the purely statistical content abstracted
   as oracle parameters. -/

namespace CovidSeq

/-- Genotype call classification of a biallelic entry: the three mutually
exclusive classes tested by `GT.is_hom_ref()`, `GT.is_het()` and
`GT.is_hom_var()` in the notebook. -/
inductive Call
  | homRef
  | het
  | homVar
deriving DecidableEq

/-- A column (sample) of the MatrixTable, carrying the column fields the
notebook reads or writes: the key `s`, the `sample_qc` statistics
`call_rate`, `dp_stats.mean` and `n_snp`, and the annotated fields
`pheno` and `impute_sex.is_female` (both `Option`, since they come from
table joins and may be missing). -/
structure Col where
  s : ℕ
  callRate : ℚ
  dpMean : ℚ
  nSnp : ℤ
  pheno : Option ℕ
  isFemale : Option Bool
deriving DecidableEq

/-- A row (variant) of the MatrixTable: the locus key, the allele list,
the VQSR `filters` set, the annotated flags `fail_VQSR` and `in_LCR`,
and the per-sample genotypes of the row (`n_alt_alleles` of each entry,
`none` for a missing GT), used by the row-level aggregations. -/
structure VRow where
  locus : ℕ
  alleles : List String
  filters : List String
  fail_VQSR : Bool
  in_LCR : Bool
  entryGTs : List (Option ℕ)
deriving DecidableEq

/-- An entry (genotype cell) of the MatrixTable: fields `GQ`, `DP`,
`GT` (missing allowed) and the allele-depth array `AD`, plus the
annotated allele-balance field `AB`. -/
structure Entry where
  GQ : ℤ
  DP : ℤ
  GT : Option Call
  AD : List ℤ
  AB : ℚ
deriving DecidableEq

/-- `MatrixTable.filter_cols(p, keep)`: keeps the columns on which the
predicate equals `keep` (Hail's default is `keep=True`; the notebook
also uses `keep=False`). -/
def filter_cols (mt : List Col) (p : Col → Bool) (keep : Bool) : List Col :=
  mt.filter (fun c => p c == keep)

/-- `MatrixTable.filter_rows(p, keep)` on the row (variant) axis. -/
def filter_rows (mt : List VRow) (p : VRow → Bool) (keep : Bool) : List VRow :=
  mt.filter (fun r => p r == keep)

/-- `MatrixTable.filter_entries(p)` on the entry axis (an entry whose
predicate is not `True` — including a missing predicate — is removed). -/
def filter_entries (mt : List Entry) (p : Entry → Bool) (keep : Bool) : List Entry :=
  mt.filter (fun e => p e == keep)

/-- `MatrixTable.annotate_cols`: rewrites each column by the annotation
function. -/
def annotate_cols (mt : List Col) (f : Col → Col) : List Col :=
  mt.map f

/-- `MatrixTable.annotate_rows`: rewrites each row by the annotation
function. -/
def annotate_rows (mt : List VRow) (f : VRow → VRow) : List VRow :=
  mt.map f

/-- `MatrixTable.annotate_entries`: rewrites each entry by the annotation
function. -/
def annotate_entries (mt : List Entry) (f : Entry → Entry) : List Entry :=
  mt.map f

/-- Per-column function of `mt.annotate_cols(pheno = sa[mt.s])`: joins the
sample-annotation table (abstracted as a lookup) into the `pheno` field. -/
def phenoAnn (sa : ℕ → Option ℕ) (c : Col) : Col :=
  { c with pheno := sa c.s }

/-- The notebook cell `mt = mt.annotate_cols(pheno = sa[mt.s])`. -/
def annotatePheno (sa : ℕ → Option ℕ) (mt : List Col) : List Col :=
  annotate_cols mt (phenoAnn sa)

/-- Per-column function of `mt.annotate_cols(impute_sex = imputed_sex[mt.s])`:
joins the table produced by `hl.impute_sex` (abstracted as a lookup of the
`is_female` result) into the column. -/
def imputeSexAnn (imputed : ℕ → Option Bool) (c : Col) : Col :=
  { c with isFemale := imputed c.s }

/-- The notebook cell `mt = mt.annotate_cols(impute_sex = imputed_sex[mt.s])`. -/
def annotateImputeSexCols (imputed : ℕ → Option Bool) (mt : List Col) : List Col :=
  annotate_cols mt (imputeSexAnn imputed)

/-- The cell `mt = mt.filter_cols(mt.sample_qc.call_rate >= 0.97)`
(notebook line 457). -/
def callRateFilterStep (mt : List Col) : List Col :=
  filter_cols mt (fun c => decide (c.callRate ≥ 97/100)) true

/-- The cell
`mt = mt.filter_cols((mt.sample_qc.call_rate >= 0.97) &
(mt.sample_qc.dp_stats.mean > 20) & (hl.is_defined(mt.impute_sex.is_female)))`
(notebook lines 634-635). -/
def additionalFiltersStep (mt : List Col) : List Col :=
  filter_cols mt
    (fun c => decide (c.callRate ≥ 97/100) && decide (c.dpMean > 20) && c.isFemale.isSome)
    true

/-- Composition of the two sample-QC column filters of section 2.0, in
notebook order. -/
def sampleQCFilters (mt : List Col) : List Col :=
  additionalFiltersStep (callRateFilterStep mt)

/-- Insertion of an element into an ascending list, the auxiliary step of
the sort underlying the median. -/
def insertAsc (x : ℚ) : List ℚ → List ℚ
  | [] => [x]
  | y :: ys => if x ≤ y then x :: y :: ys else y :: insertAsc x ys

/-- Ascending insertion sort over ℚ. -/
def sortAsc (xs : List ℚ) : List ℚ :=
  xs.foldr insertAsc []

/-- `hl.median` over a collected array: middle element of the sorted list
(mean of the two middle elements for an even length, 0 for an empty
list). -/
def hailMedian (xs : List ℚ) : ℚ :=
  let s := sortAsc xs
  let n := s.length
  if n = 0 then 0
  else if n % 2 = 1 then s.getD (n / 2) 0
  else (s.getD (n / 2 - 1) 0 + s.getD (n / 2) 0) / 2

/-- The `hl.struct` built by the outlier-detection cell (notebook lines
926-937): `median`, `mad`, `upper` and `lower` as computed there. -/
structure OutlierStats where
  median : ℚ
  mad : ℚ
  upper : ℚ
  lower : ℚ
deriving DecidableEq

/-- The outlier-detection aggregation over the `n_snp` metric:
`metric_median = hl.median(metric_values)`,
`metric_mad = 1.4826 * hl.median(hl.abs(metric_values - metric_median))`,
`upper = median + 4 * mad`, `lower = median - 4 * mad`
(the constant 1.4826 is written as the rational 14826/10000). -/
def outlierMetricStats (mt : List Col) : OutlierStats :=
  let metricValues : List ℚ := mt.map (fun c => (c.nSnp : ℚ))
  let metricMedian := hailMedian metricValues
  let metricMad := (14826/10000) * hailMedian (metricValues.map (fun v => |v - metricMedian|))
  { median := metricMedian
    mad := metricMad
    upper := metricMedian + 4 * metricMad
    lower := metricMedian - 4 * metricMad }

/-- The outlier filter cell (notebook lines 968-969), exactly as written:
`mt = mt.filter_cols((mt.sample_qc.n_snp <= mt.metrics_stats.upper) |
(mt.sample_qc.n_snp >= mt.metrics_stats.lower))` — note the `|`. -/
def outlierFilterStep (mt : List Col) : List Col :=
  let stats := outlierMetricStats mt
  filter_cols mt
    (fun c => decide ((c.nSnp : ℚ) ≤ stats.upper) || decide ((c.nSnp : ℚ) ≥ stats.lower))
    true

/-- Concrete sample with a typical `n_snp` value. -/
def qcolA : Col := { s := 0, callRate := 1, dpMean := 30, nSnp := 10, pheno := none, isFemale := some true }

/-- Concrete sample with a typical `n_snp` value. -/
def qcolB : Col := { s := 1, callRate := 1, dpMean := 30, nSnp := 10, pheno := none, isFemale := some true }

/-- Concrete sample with a typical `n_snp` value. -/
def qcolC : Col := { s := 2, callRate := 1, dpMean := 30, nSnp := 10, pheno := none, isFemale := some true }

/-- Concrete sample whose `n_snp` is an extreme outlier. -/
def qcolD : Col := { s := 3, callRate := 1, dpMean := 30, nSnp := 1000, pheno := none, isFemale := some true }

/-- C1: the outlier-detection filter as written does NOT remove samples
outside `[lower, upper]`.  On four samples with `n_snp` values
10, 10, 10, 1000 the statistics are `median = 10`, `mad = 0`, so
`upper = lower = 10`; the sample with `n_snp = 1000` lies strictly above
`upper`, yet the filter keeps all four samples, because the `|` in the
filter cell makes the predicate a tautology (any value is either below
`upper` or above `lower`). -/
theorem outlier_filter_keeps_extreme_sample :
    (outlierMetricStats [qcolA, qcolB, qcolC, qcolD]).upper < ((1000 : ℤ) : ℚ) ∧
    qcolD.nSnp = 1000 ∧
    outlierFilterStep [qcolA, qcolB, qcolC, qcolD] = [qcolA, qcolB, qcolC, qcolD] := by
  refine ⟨?_, rfl, ?_⟩ <;>
    norm_num [outlierMetricStats, outlierFilterStep, hailMedian, sortAsc, insertAsc,
      filter_cols, List.filter, qcolA, qcolB, qcolC, qcolD]

/-- Concrete sample passing all sample-QC thresholds. -/
def colW : Col := { s := 7, callRate := 1, dpMean := 25, nSnp := 10, pheno := none, isFemale := some false }

/-- C4: a sample is retained by the sample-QC column filters exactly when
its call rate is at least 0.97, its mean depth exceeds 20, and its
imputed sex is defined. -/
theorem sampleQC_retained_iff (mt : List Col) (c : Col) :
    c ∈ sampleQCFilters mt ↔
      c ∈ mt ∧ 97/100 ≤ c.callRate ∧ 20 < c.dpMean ∧ c.isFemale.isSome = true := by
  simp only [sampleQCFilters, additionalFiltersStep, callRateFilterStep, filter_cols,
    List.mem_filter, beq_iff_eq, Bool.and_eq_true, decide_eq_true_eq, ge_iff_le, gt_iff_lt]
  tauto

/-- C4 witness: the concrete sample `colW` satisfies the three conditions
and is retained. -/
theorem sampleQC_retained_iff_witness : colW ∈ sampleQCFilters [colW] :=
  (sampleQC_retained_iff [colW] colW).mpr
    ⟨by simp, by norm_num [colW], by norm_num [colW], by simp [colW]⟩

/-- All unordered pairs (taken in list order) of a list of sample keys. -/
def allSamplePairs : List ℕ → List (ℕ × ℕ)
  | [] => []
  | x :: xs => xs.map (fun y => (x, y)) ++ allSamplePairs xs

/-- Modelled from the spec: the external `hl.pc_relate` routine ("kinship-based
maximal-independent-set pruning" uses "model free relatedness estimation via
PC-Relate").  The statistical kinship estimate is abstracted as an oracle
`kin`; per the wrapped library's interface, pairs of samples whose kinship is
lower than `min_kinship` are excluded from the returned table.  The notebook
calls it with `min_kinship=0.1`. -/
def pc_relate (samples : List ℕ) (kin : ℕ → ℕ → ℚ) (minKinship : ℚ) : List (ℕ × ℕ × ℚ) :=
  (allSamplePairs samples).filterMap (fun p =>
    if kin p.1 p.2 < minKinship then none else some (p.1, p.2, kin p.1 p.2))

/-- Modelled from the spec: `hl.maximal_independent_set(pairs.i, pairs.j, False)`
returns the set of samples to remove, such that no edge survives among the
kept samples (the kept samples form an independent set of the pair graph).
We realise it as a greedy cover: walk the edges and, whenever an edge has
neither endpoint marked yet, mark its first endpoint for removal. -/
def maximal_independent_set_remove (edges : List (ℕ × ℕ)) : List ℕ :=
  edges.foldl (fun acc e => if acc.contains e.1 || acc.contains e.2 then acc else e.1 :: acc) []

/-- The relatedness cells (notebook lines 695-715):
`relatedness_ht = hl.pc_relate(..., min_kinship=0.1, ...)`,
`pairs = relatedness_ht.filter(relatedness_ht['kin'] > 0.088)`,
`related_samples_to_remove = hl.maximal_independent_set(pairs.i, pairs.j, False)`
(0.088 is written as the rational 88/1000). -/
def related_samples_to_remove (samples : List ℕ) (kin : ℕ → ℕ → ℚ) : List ℕ :=
  let relatedness_ht := pc_relate samples kin (1/10)
  let prunedPairs := relatedness_ht.filter (fun r => decide (r.2.2 > 88/1000))
  maximal_independent_set_remove (prunedPairs.map (fun r => (r.1, r.2.1)))

/-- The pruning cell (notebook line 740):
`mt = mt.filter_cols(hl.is_defined(related_samples_to_remove[mt.col_key]), keep=False)`,
expressed on the list of sample keys. -/
def relatednessFilterStep (samples : List ℕ) (kin : ℕ → ℕ → ℚ) : List ℕ :=
  samples.filter (fun s => !((related_samples_to_remove samples kin).contains s))

/-- Concrete kinship oracle: the two distinct demo samples have kinship
9/100 = 0.09, which is above the documented 0.088 pruning threshold but
below the `min_kinship=0.1` cutoff passed to `pc_relate`. -/
def kinDemo (i j : ℕ) : ℚ :=
  if i = j then 1/2 else 9/100

/-- C3: a pair of samples with kinship 0.09 > 0.088 survives the
relatedness pruning intact.  Because `pc_relate` is called with
`min_kinship=0.1`, the pair never reaches the `kin > 0.088` filter, the
pair list is empty, and neither sample is removed — contradicting the
stated guarantee that one member of every pair with kinship above 0.088
is removed. -/
theorem relatedness_prune_misses_pair_below_min_kinship :
    88/1000 < kinDemo 0 1 ∧
    relatednessFilterStep [0, 1] kinDemo = [0, 1] := by
  constructor <;>
    norm_num [relatednessFilterStep, related_samples_to_remove, pc_relate, allSamplePairs,
      maximal_independent_set_remove, kinDemo, List.filter, List.filterMap]

/-- Per-entry function of the cell
`mt = mt.annotate_entries(AB = (mt.AD[1] / hl.sum(mt.AD)))`
(notebook line 1164). -/
def abAnn (e : Entry) : Entry :=
  { e with AB := ((e.AD.getD 1 0 : ℤ) : ℚ) / ((e.AD.sum : ℤ) : ℚ) }

/-- The allele-balance annotation cell applied to the entry axis. -/
def annotateAB (mt : List Entry) : List Entry :=
  annotate_entries mt abAnn

/-- The predicate of the genotype-QC cell (notebook lines 1187-1192),
exactly as written:
`(mt.GQ>=20) & (mt.GQ >= 10) & ((mt.GT.is_hom_ref() & (mt.AB <= 0.1)) |
(mt.GT.is_het() & (mt.AB >= 0.25) & (mt.AB <= 0.75)) |
(mt.GT.is_hom_var() & (mt.AB >= 0.9)))`.
The three call classes are mutually exclusive, so the disjunction is the
match below; an entry with missing GT has a non-True (missing) predicate
and is removed by `filter_entries`, hence the `none` branch is `false`.
The decimal thresholds are the rationals 1/10, 1/4, 3/4 and 9/10. -/
def genotypeCondition (e : Entry) : Bool :=
  decide (e.GQ ≥ 20) && decide (e.GQ ≥ 10) &&
    (match e.GT with
     | some Call.homRef => decide (e.AB ≤ 1/10)
     | some Call.het => decide (e.AB ≥ 1/4) && decide (e.AB ≤ 3/4)
     | some Call.homVar => decide (e.AB ≥ 9/10)
     | none => false)

/-- Section 2.2 of the notebook: annotate `AB`, then
`mt = mt.filter_entries(...)` with the predicate above. -/
def genotypeQCStep (mt : List Entry) : List Entry :=
  filter_entries (annotateAB mt) genotypeCondition true

/-- Concrete entry with high genotype quality but read depth 5 < 10. -/
def lowDPEntry : Entry :=
  { GQ := 25, DP := 5, GT := some Call.het, AD := [5, 5], AB := 0 }

/-- C2: the genotype-QC filter never reads `DP`.  The filter cell tests
`mt.GQ >= 10` where the documented threshold is `DP >= 10`, so the entry
`lowDPEntry` with `DP = 5` (failing the documented depth threshold) is
retained by the filter. -/
theorem genotype_filter_keeps_low_DP_entry :
    lowDPEntry.DP < 10 ∧
    genotypeQCStep [lowDPEntry] = [{ lowDPEntry with AB := 1/2 }] := by
  constructor
  · norm_num [lowDPEntry]
  · norm_num [genotypeQCStep, filter_entries, annotateAB, annotate_entries, abAnn,
      genotypeCondition, lowDPEntry, List.filter]

/-- C6: the annotated `AB` of a retained entry equals `AD[1] / sum(AD)`,
and a retained entry satisfies the allele-balance condition of its call
class: at most 0.1 for hom-ref calls, between 0.25 and 0.75 for het
calls, at least 0.9 for hom-var calls. -/
theorem genotypeQC_allele_balance (mt : List Entry) (e : Entry)
    (he : e ∈ genotypeQCStep mt) :
    e.AB = ((e.AD.getD 1 0 : ℤ) : ℚ) / ((e.AD.sum : ℤ) : ℚ) ∧
    (e.GT = some Call.homRef → e.AB ≤ 1/10) ∧
    (e.GT = some Call.het → 1/4 ≤ e.AB ∧ e.AB ≤ 3/4) ∧
    (e.GT = some Call.homVar → 9/10 ≤ e.AB) := by
  simp only [genotypeQCStep, filter_entries, annotateAB, annotate_entries, List.mem_filter,
    List.mem_map, beq_iff_eq] at he
  obtain ⟨⟨e₀, _he₀, rfl⟩, hcond⟩ := he
  simp only [genotypeCondition, Bool.and_eq_true, decide_eq_true_eq] at hcond
  obtain ⟨-, hmatch⟩ := hcond
  refine ⟨rfl, ?_, ?_, ?_⟩ <;> intro hgt <;>
    simp only [abAnn] at hgt hmatch ⊢ <;> rw [hgt] at hmatch <;>
    simpa using hmatch

/-- Concrete heterozygous entry with balanced allele depths. -/
def balancedHetEntry : Entry :=
  { GQ := 30, DP := 12, GT := some Call.het, AD := [6, 6], AB := 0 }

/-- C6 witness: applying the theorem to the annotated form of
`balancedHetEntry`, which the genotype filter retains. -/
theorem genotypeQC_allele_balance_witness :
    ({ balancedHetEntry with AB := 1/2 } : Entry).AB
        = ((({ balancedHetEntry with AB := 1/2 } : Entry).AD.getD 1 0 : ℤ) : ℚ)
            / ((({ balancedHetEntry with AB := 1/2 } : Entry).AD.sum : ℤ) : ℚ) ∧
    (({ balancedHetEntry with AB := 1/2 } : Entry).GT = some Call.homRef →
        ({ balancedHetEntry with AB := 1/2 } : Entry).AB ≤ 1/10) ∧
    (({ balancedHetEntry with AB := 1/2 } : Entry).GT = some Call.het →
        1/4 ≤ ({ balancedHetEntry with AB := 1/2 } : Entry).AB ∧
          ({ balancedHetEntry with AB := 1/2 } : Entry).AB ≤ 3/4) ∧
    (({ balancedHetEntry with AB := 1/2 } : Entry).GT = some Call.homVar →
        9/10 ≤ ({ balancedHetEntry with AB := 1/2 } : Entry).AB) :=
  genotypeQC_allele_balance [balancedHetEntry] _ (by
    norm_num [genotypeQCStep, filter_entries, annotateAB, annotate_entries, abAnn,
      genotypeCondition, balancedHetEntry, List.filter])

/-- Per-row function of the cell
`mt = mt.annotate_rows(fail_VQSR = hl.len(mt.filters) == 0)`
(notebook line 1024). -/
def failVQSRpassAnn (r : VRow) : VRow :=
  { r with fail_VQSR := r.filters.length == 0 }

/-- The annotation cell at notebook line 1024 applied to the row axis. -/
def annotateFailVQSRzero (mt : List VRow) : List VRow :=
  annotate_rows mt failVQSRpassAnn

/-- Per-row function of the cell
`mt = mt.annotate_rows(fail_VQSR = hl.len(mt.filters) != 0)`
(notebook line 1097), which overwrites the field written at line 1024. -/
def failVQSRfailAnn (r : VRow) : VRow :=
  { r with fail_VQSR := !(r.filters.length == 0) }

/-- The annotation cell at notebook line 1097 applied to the row axis. -/
def annotateFailVQSRnonzero (mt : List VRow) : List VRow :=
  annotate_rows mt failVQSRfailAnn

/-- The cell `mt = mt.filter_rows(mt.fail_VQSR, keep=False)` (notebook
line 1124). -/
def vqsrFilterStep (mt : List VRow) : List VRow :=
  filter_rows mt (fun r => r.fail_VQSR) false

/-- The VQSR part of variant QC in notebook order: the annotation at line
1024, the re-annotation at line 1097, then the removal at line 1124. -/
def variantVQSRSteps (mt : List VRow) : List VRow :=
  vqsrFilterStep (annotateFailVQSRnonzero (annotateFailVQSRzero mt))

/-- C5: at the point where the pipeline filters on it (after the
re-annotation at line 1097), `fail_VQSR` is true exactly for rows with a
non-empty `filters` set, and every row retained by the VQSR filter has an
empty `filters` set. -/
theorem vqsr_flag_iff_and_retained_pass (mt : List VRow) (r : VRow) :
    (r ∈ annotateFailVQSRnonzero (annotateFailVQSRzero mt) →
      (r.fail_VQSR = true ↔ r.filters ≠ [])) ∧
    (r ∈ variantVQSRSteps mt → r.filters = []) := by
  constructor
  · intro hr
    simp only [annotateFailVQSRnonzero, annotateFailVQSRzero, annotate_rows, List.mem_map] at hr
    obtain ⟨r₁, ⟨r₀, _hr₀, rfl⟩, rfl⟩ := hr
    simp [failVQSRfailAnn, failVQSRpassAnn, List.length_eq_zero]
  · intro hr
    simp only [variantVQSRSteps, vqsrFilterStep, filter_rows, List.mem_filter,
      annotateFailVQSRnonzero, annotateFailVQSRzero, annotate_rows, List.mem_map,
      beq_iff_eq] at hr
    obtain ⟨⟨r₁, ⟨r₀, _hr₀, rfl⟩, rfl⟩, hflag⟩ := hr
    simpa [failVQSRfailAnn, failVQSRpassAnn, List.length_eq_zero] using hflag

/-- Concrete variant that fails VQSR: its `filters` set is non-empty. -/
def trancheRow : VRow :=
  { locus := 5, alleles := ["A", "T"], filters := ["VQSRTrancheSNP99"],
    fail_VQSR := false, in_LCR := false, entryGTs := [] }

/-- C5 witness: on the concrete row `trancheRow` with a non-empty
`filters` set, the annotated flag is true. -/
theorem vqsr_flag_iff_witness :
    ({ trancheRow with fail_VQSR := true } : VRow).fail_VQSR = true :=
  ((vqsr_flag_iff_and_retained_pass [trancheRow] _).1
      (by simp [annotateFailVQSRnonzero, annotateFailVQSRzero, annotate_rows,
        failVQSRfailAnn, failVQSRpassAnn, trancheRow])).mpr
    (by simp [trancheRow])

/-- Per-row function of the cell
`mt = mt.annotate_rows(in_LCR = hl.is_defined(LCR_intervals[mt.locus]))`
(notebook line 1053), with the imported interval table abstracted as a
locus predicate. -/
def inLCRAnn (lcr : ℕ → Bool) (r : VRow) : VRow :=
  { r with in_LCR := lcr r.locus }

/-- The low-complexity-region annotation applied to the row axis. -/
def annotateInLCR (lcr : ℕ → Bool) (mt : List VRow) : List VRow :=
  annotate_rows mt (inLCRAnn lcr)

/-- Concrete variant passing VQSR: its `filters` set is empty. -/
def passRow : VRow :=
  { locus := 6, alleles := ["G", "C"], filters := [],
    fail_VQSR := false, in_LCR := false, entryGTs := [] }

/-- C9 counterexample: the `annotate_rows` at notebook line 1097 does not
leave pre-existing field values unchanged.  On a row with empty
`filters`, the annotation at line 1024 sets the pre-declared field
`fail_VQSR` to true, and the annotation at line 1097 then overwrites
that pre-existing field value with false. -/
theorem annotate_rows_overwrites_existing_field :
    annotateFailVQSRzero [passRow] = [{ passRow with fail_VQSR := true }] ∧
    annotateFailVQSRnonzero [{ passRow with fail_VQSR := true }]
        = [{ passRow with fail_VQSR := false }] ∧
    ({ passRow with fail_VQSR := true } : VRow).fail_VQSR
        ≠ ({ passRow with fail_VQSR := false } : VRow).fail_VQSR := by
  refine ⟨?_, ?_, by simp⟩ <;>
    simp [annotateFailVQSRzero, annotateFailVQSRnonzero, annotate_rows,
      failVQSRpassAnn, failVQSRfailAnn, passRow]

/-- C9 (amended): every annotation operation of the pipeline keeps the
number of columns, rows and entries unchanged and modifies only its
named field — every other field of every column, row and entry keeps its
value.  (The named field itself may overwrite a same-named pre-existing
field, as `fail_VQSR` does at line 1097.) -/
theorem annotations_preserve_counts_and_other_fields
    (sa : ℕ → Option ℕ) (imputed : ℕ → Option Bool) (lcr : ℕ → Bool)
    (cols : List Col) (rows : List VRow) (es : List Entry)
    (c : Col) (r : VRow) (e : Entry) :
    (annotatePheno sa cols).length = cols.length ∧
    (annotateImputeSexCols imputed cols).length = cols.length ∧
    (annotateInLCR lcr rows).length = rows.length ∧
    (annotateFailVQSRzero rows).length = rows.length ∧
    (annotateFailVQSRnonzero rows).length = rows.length ∧
    (annotateAB es).length = es.length ∧
    ((phenoAnn sa c).s = c.s ∧ (phenoAnn sa c).callRate = c.callRate ∧
      (phenoAnn sa c).dpMean = c.dpMean ∧ (phenoAnn sa c).nSnp = c.nSnp ∧
      (phenoAnn sa c).isFemale = c.isFemale) ∧
    ((imputeSexAnn imputed c).s = c.s ∧ (imputeSexAnn imputed c).callRate = c.callRate ∧
      (imputeSexAnn imputed c).dpMean = c.dpMean ∧ (imputeSexAnn imputed c).nSnp = c.nSnp ∧
      (imputeSexAnn imputed c).pheno = c.pheno) ∧
    ((inLCRAnn lcr r).locus = r.locus ∧ (inLCRAnn lcr r).alleles = r.alleles ∧
      (inLCRAnn lcr r).filters = r.filters ∧ (inLCRAnn lcr r).fail_VQSR = r.fail_VQSR ∧
      (inLCRAnn lcr r).entryGTs = r.entryGTs) ∧
    ((failVQSRpassAnn r).locus = r.locus ∧ (failVQSRpassAnn r).alleles = r.alleles ∧
      (failVQSRpassAnn r).filters = r.filters ∧ (failVQSRpassAnn r).in_LCR = r.in_LCR ∧
      (failVQSRpassAnn r).entryGTs = r.entryGTs) ∧
    ((failVQSRfailAnn r).locus = r.locus ∧ (failVQSRfailAnn r).alleles = r.alleles ∧
      (failVQSRfailAnn r).filters = r.filters ∧ (failVQSRfailAnn r).in_LCR = r.in_LCR ∧
      (failVQSRfailAnn r).entryGTs = r.entryGTs) ∧
    ((abAnn e).GQ = e.GQ ∧ (abAnn e).DP = e.DP ∧ (abAnn e).GT = e.GT ∧
      (abAnn e).AD = e.AD) := by
  simp [annotatePheno, annotateImputeSexCols, annotateInLCR, annotateFailVQSRzero,
    annotateFailVQSRnonzero, annotateAB, annotate_cols, annotate_rows, annotate_entries,
    phenoAnn, imputeSexAnn, inLCRAnn, failVQSRpassAnn, failVQSRfailAnn, abAnn]

/-- Modelled from the spec: the external multi-allelic splitting step
`mt = hl.split_multi_hts(mt)` ("We would recommend to split multiallelic
variants into biallelic variants"): each variant row with allele list
`[ref, a1, ..., ak]` is replaced by the k biallelic rows `[ref, ai]`. -/
def split_multi_hts (mt : List VRow) : List VRow :=
  mt.flatMap (fun r =>
    (r.alleles.drop 1).map (fun alt => { r with alleles := [r.alleles.headD "", alt] }))

/-- Concrete tri-allelic variant (reference allele plus two alternates). -/
def triallelicRow : VRow :=
  { locus := 9, alleles := ["A", "T", "C"], filters := [],
    fail_VQSR := false, in_LCR := false, entryGTs := [] }

/-- C8 counterexample: the pipeline step `hl.split_multi_hts` increases
the variant count — one tri-allelic row becomes two biallelic rows — so
the variant count is not non-increasing across every pipeline step. -/
theorem split_multi_increases_variant_count :
    (split_multi_hts [triallelicRow]).length = 2 ∧
    ([triallelicRow] : List VRow).length = 1 ∧
    ¬ ((split_multi_hts [triallelicRow]).length ≤ ([triallelicRow] : List VRow).length) := by
  refine ⟨?_, rfl, ?_⟩ <;> simp [split_multi_hts, triallelicRow]

/-- C8 (amended): every `filter_cols`, `filter_rows` and `filter_entries`
operation only removes data — its output is a sublist of its input, so
the column, row and entry counts are non-increasing across every
filtering step (the multi-allelic splitting step, by contrast, can
increase the variant count). -/
theorem filter_steps_only_remove
    (cols : List Col) (pc : Col → Bool) (kc : Bool)
    (rows : List VRow) (pr : VRow → Bool) (kr : Bool)
    (es : List Entry) (pe : Entry → Bool) (ke : Bool) :
    (filter_cols cols pc kc).Sublist cols ∧
    (filter_cols cols pc kc).length ≤ cols.length ∧
    (filter_rows rows pr kr).Sublist rows ∧
    (filter_rows rows pr kr).length ≤ rows.length ∧
    (filter_entries es pe ke).Sublist es ∧
    (filter_entries es pe ke).length ≤ es.length :=
  ⟨List.filter_sublist _, List.length_filter_le _ _,
   List.filter_sublist _, List.length_filter_le _ _,
   List.filter_sublist _, List.length_filter_le _ _⟩

/-- Sequential execution of the notebook: each cell is a call into the
external library that either returns the next state of the data or
raises; the authored glue threads the state through the calls with no
try/except anywhere, which is exactly the bind of the exception monad. -/
def runPipeline {α ε : Type} (steps : List (α → Except ε α)) (x : α) : Except ε α :=
  steps.foldl (fun acc step => acc.bind step) (Except.ok x)

/-- Folding further pipeline steps over an already-raised exception
leaves the exception unchanged. -/
theorem foldl_bind_error {α ε : Type} (steps : List (α → Except ε α)) (e : ε) :
    steps.foldl (fun acc step => acc.bind step) (Except.error e) = Except.error e := by
  induction steps with
  | nil => rfl
  | cons s ss ih => simpa [Except.bind] using ih

/-- C7: if a library call raises during a prefix of the pipeline, the
whole pipeline returns that exact exception — the remaining steps never
run and nothing catches, retries or rewraps the error. -/
theorem pipeline_propagates_errors {α ε : Type}
    (steps rest : List (α → Except ε α)) (x : α) (e : ε)
    (h : runPipeline steps x = Except.error e) :
    runPipeline (steps ++ rest) x = Except.error e := by
  unfold runPipeline at h ⊢
  rw [List.foldl_append, h, foldl_bind_error]

/-- A library step that raises (error codes stand in for the library's
exception objects). -/
def raisingImportStep (_mt : ℕ) : Except ℕ ℕ :=
  Except.error 404

/-- A library step that succeeds and returns the next state. -/
def succeedingStep (mt : ℕ) : Except ℕ ℕ :=
  Except.ok (mt + 1)

/-- C7 witness: a pipeline whose first step raises error 404 propagates
that error past a later succeeding step. -/
theorem pipeline_propagates_errors_witness :
    runPipeline ([raisingImportStep] ++ [succeedingStep]) 0 = Except.error 404 :=
  pipeline_propagates_errors [raisingImportStep] [succeedingStep] 0 404 rfl

/-- `hl.is_snp(ref, alt)`: both alleles are single bases and differ. -/
def is_snp (ref alt : String) : Bool :=
  (ref.length == 1) && (alt.length == 1) && (ref != alt)

/-- The defined genotypes of a row: aggregators skip missing values. -/
def definedGTs (r : VRow) : List ℕ :=
  r.entryGTs.filterMap id

/-- `hl.agg.mean(mt.GT.n_alt_alleles())`: the mean of `n_alt_alleles`
over the row's non-missing genotypes. -/
def meanNAltAlleles (r : VRow) : ℚ :=
  ((definedGTs r).sum : ℚ) / ((definedGTs r).length : ℚ)

/-- `hl.agg.fraction(hl.is_defined(mt.GT))`: the fraction of the row's
entries with a defined genotype. -/
def gtDefinedFraction (r : VRow) : ℚ :=
  ((definedGTs r).length : ℚ) / (r.entryGTs.length : ℚ)

/-- The predicate of the sex-QC row pre-filter (notebook lines 525-528):
`(hl.len(mt.alleles) == 2) & hl.is_snp(mt.alleles[0], mt.alleles[1]) &
(hl.agg.mean(mt.GT.n_alt_alleles()) / 2 > 0.001) &
(hl.agg.fraction(hl.is_defined(mt.GT)) > 0.97)`
(0.001 and 0.97 are the rationals 1/1000 and 97/100). -/
def sexQCRowCondition (r : VRow) : Bool :=
  (r.alleles.length == 2) && is_snp (r.alleles.getD 0 "") (r.alleles.getD 1 "") &&
    decide (meanNAltAlleles r / 2 > 1/1000) && decide (gtDefinedFraction r > 97/100)

/-- The row filter applied immediately before `hl.impute_sex`
(notebook lines 525-528): the rows it keeps are the variants handed to
sex imputation. -/
def sexQCRowFilterStep (mt : List VRow) : List VRow :=
  filter_rows mt sexQCRowCondition true

/-- C10: every variant passed to sex imputation — i.e. retained by the
pre-filter just before `hl.impute_sex` — is biallelic, is a SNP, has
mean alternate-allele frequency strictly above 0.001, and has genotype
call rate strictly above 0.97. -/
theorem sex_imputation_rows_filtered (mt : List VRow) (r : VRow)
    (hr : r ∈ sexQCRowFilterStep mt) :
    r.alleles.length = 2 ∧
    is_snp (r.alleles.getD 0 "") (r.alleles.getD 1 "") = true ∧
    meanNAltAlleles r / 2 > 1/1000 ∧
    gtDefinedFraction r > 97/100 := by
  simp only [sexQCRowFilterStep, filter_rows, List.mem_filter, beq_iff_eq] at hr
  obtain ⟨-, hcond⟩ := hr
  simpa [sexQCRowCondition, and_assoc] using hcond

/-- Concrete biallelic SNP row on which every sample carries one defined
alternate allele. -/
def snpRow : VRow :=
  { locus := 12, alleles := ["A", "G"], filters := [],
    fail_VQSR := false, in_LCR := false, entryGTs := [some 1, some 1] }

/-- C10 witness: the concrete row `snpRow` is retained by the pre-filter
and satisfies all four conditions. -/
theorem sex_imputation_rows_filtered_witness :
    snpRow.alleles.length = 2 ∧
    is_snp (snpRow.alleles.getD 0 "") (snpRow.alleles.getD 1 "") = true ∧
    meanNAltAlleles snpRow / 2 > 1/1000 ∧
    gtDefinedFraction snpRow > 97/100 :=
  sex_imputation_rows_filtered [snpRow] snpRow (by
    have hd : definedGTs snpRow = [1, 1] := by decide
    have h1 : is_snp (snpRow.alleles.getD 0 "") (snpRow.alleles.getD 1 "") = true := by decide
    have h2 : (snpRow.alleles.length == 2) = true := by decide
    have hl : snpRow.entryGTs.length = 2 := by decide
    have h3 : meanNAltAlleles snpRow / 2 > 1/1000 := by norm_num [meanNAltAlleles, hd]
    have h4 : gtDefinedFraction snpRow > 97/100 := by
      norm_num [gtDefinedFraction, hd, hl]
    have hs : sexQCRowCondition snpRow = true := by
      simp only [sexQCRowCondition, Bool.and_eq_true, decide_eq_true_eq, gt_iff_lt]
      exact ⟨⟨⟨h2, h1⟩, by linarith [h3]⟩, by linarith [h4]⟩
    simp [sexQCRowFilterStep, filter_rows, List.mem_filter, hs])

end CovidSeq
